import Mathlib

/-!
Shallow embedding of the conversational-bot core (context store, plugin
chain dispatcher, echo plugin, cadence-gated AI plugin) together with
theorems checking the natural-language specification against it.

The definitions mirror the Python source files `context.py`, `plugin.py`
and `main.py` of the repository; Python-specific behaviours (negative-index
slicing, `str.lstrip` character-set stripping, dict insertion order,
`max()` returning the first maximal element, exceptions) are modelled
explicitly.
-/

/-- A single history record, mirroring `SingleRecord` in `context.py`. -/
structure SingleRecord where
  sender : String
  text : String
  t : Nat
deriving DecidableEq, Repr

/-- The CJK punctuation characters removed by `SingleRecord.clean`
(first `re.sub` character class in `context.py`). -/
def cjkPunct : List Char :=
  ['，', '。', '！', '？', '；', '：', '、', '（', '）', '《', '》',
   '【', '】', '“', '”', '‘', '’', '—', '…']

/-- The ASCII punctuation characters removed by `SingleRecord.clean`
(second `re.sub` character class in `context.py`). -/
def asciiPunct : List Char :=
  [',', '.', '!', '?', ';', ':', '(', ')', '{', '}', '"', Char.ofNat 39,
   '[', ']', '<', '>']

/-- Delete every character belonging to `bad` (a `re.sub` of a
single-character class with the empty replacement). -/
def removeChars (bad : List Char) (s : List Char) : List Char :=
  s.filter (fun c => ¬ bad.contains c)

/-- The third substitution of `SingleRecord.clean`.  The Python pattern
is written `\[[a-zA-Z]{2-9}\]`; since `{2-9}` is not a valid quantifier,
the `re` module treats it as the literal characters `{`, `2`, `-`, `9`,
`}`, so the pattern matches a bracket, one ASCII letter, that literal
five-character run, and a closing bracket.  `re.sub` scans left to right,
deleting each non-overlapping match. -/
def removeEmoticon : List Char → List Char
  | '[' :: c :: '{' :: '2' :: '-' :: '9' :: '}' :: ']' :: rest =>
    if c.isAlpha then removeEmoticon rest
    else '[' :: removeEmoticon (c :: '{' :: '2' :: '-' :: '9' :: '}' :: ']' :: rest)
  | c :: rest => c :: removeEmoticon rest
  | [] => []

/-- `SingleRecord.clean` from `context.py`: strip CJK punctuation, then
ASCII punctuation, then apply the (mis-quantified) emoticon pattern. -/
def SingleRecord.clean (text : String) : String :=
  String.mk (removeEmoticon (removeChars asciiPunct (removeChars cjkPunct text.data)))

/-- `SingleRecord.pure_text` from `context.py`. -/
def SingleRecord.pure_text (r : SingleRecord) : String :=
  SingleRecord.clean r.text

/-- Per-conversation bounded history, mirroring `ChatWindow` in
`context.py` (`maxHistory` defaults to 100 there). -/
structure ChatWindow where
  maxHistory : Nat
  history : List SingleRecord
deriving DecidableEq, Repr

/-- Python slice `l[i:]` for an arbitrary (possibly negative) integer
start index. -/
def pySliceFrom {α : Type} (l : List α) (i : Int) : List α :=
  if i < 0 then l.drop (l.length - (-i).toNat)
  else l.drop i.toNat

/-- `ChatWindow.append` from `context.py`: when the window is full,
`pop(0)` evicts the oldest record before appending.  `pop(0)` on an empty
list raises `IndexError`, modelled by `none` (reachable only when
`maxHistory = 0`). -/
def ChatWindow.append (w : ChatWindow) (sender text : String) (t : Nat) :
    Option ChatWindow :=
  if w.maxHistory ≤ w.history.length then
    match w.history with
    | [] => none
    | _ :: rest => some ⟨w.maxHistory, rest ++ [⟨sender, text, t⟩]⟩
  else
    some ⟨w.maxHistory, w.history ++ [⟨sender, text, t⟩]⟩

/-- A sequence of `append` calls, mirroring repeated
`ChatWindow.append(sender, text, t)` invocations. -/
def ChatWindow.appendAll (w : ChatWindow) : List (String × String × Nat) → Option ChatWindow
  | [] => some w
  | (s, x, t) :: rest =>
    match w.append s x t with
    | none => none
    | some w' => w'.appendAll rest

/-- `ChatWindow.extend` from `context.py`.  When the combined length
exceeds `maxHistory` the stored history is replaced by the Python slice
`self._history[-(self.max_history - len(other._history)):]`; the index is
the Python integer `len(other) - max_history`.  Note that in this branch
the source never appends `other`'s records. -/
def ChatWindow.extend (w other : ChatWindow) : ChatWindow :=
  if w.maxHistory < w.history.length + other.history.length then
    ⟨w.maxHistory, pySliceFrom w.history ((other.history.length : Int) - (w.maxHistory : Int))⟩
  else
    ⟨w.maxHistory, w.history ++ other.history⟩

/-- `ChatWindow.latest_n` from `context.py`: when `n < len(history)` a
fresh window is built from the slice `self._history[-n:]` through the
constructor (whose default capacity is 100 and which truncates with
`history[:max_history]`); otherwise the window itself is returned. -/
def ChatWindow.latest_n (w : ChatWindow) (n : Nat) : ChatWindow :=
  if n < w.history.length then ⟨100, (pySliceFrom w.history (-(n : Int))).take 100⟩
  else w

/-- Inbound message fields consulted by the plugins
(`msg.type`, `msg.roomid` in `plugin.py`). -/
structure Message where
  type : Nat
  roomid : String
deriving DecidableEq, Repr

/-- The plugin loop of `WxHelper.on_message` in `main.py`:

```
for plugin in plugins:
    current_round, _continue = await plugin.handle(...)
    if not _continue:
        break
    if current_round:
        response_back.extend(current_round)
```

Each chain element is the outcome of one `plugin.handle` call:
`Except.error ()` models a raised exception (there is no `try` around the
call, so it propagates out of the loop), and `Except.ok (r, c)` models a
normal return of `(r, c)`.  The result is the final `response_back`
buffer, or the propagated exception. -/
def dispatchLoop (acc : List String) :
    List (Except Unit (Option (List String) × Bool)) → Except Unit (List String)
  | [] => Except.ok acc
  | Except.error e :: _ => Except.error e
  | Except.ok (r, c) :: rest =>
    if c then dispatchLoop (acc ++ r.getD []) rest
    else Except.ok acc

/-- Python dict lookup on an insertion-ordered association list. -/
def lookupState {α : Type} : List (String × α) → String → Option α
  | [], _ => none
  | (k', v) :: rest, k => if k' = k then some v else lookupState rest k

/-- Python dict assignment `d[k] = v` on an insertion-ordered association
list: replace in place when present, append when absent. -/
def setState {α : Type} : List (String × α) → String → α → List (String × α)
  | [], k, v => [(k, v)]
  | (k', v') :: rest, k, v =>
    if k' = k then (k, v) :: rest else (k', v') :: setState rest k v

/-- Python `str.lstrip(chars)`: remove the longest leading run of
characters each of which occurs in `chars` (a character set, not a
literal prefix). -/
def pyLstrip (s chars : String) : String :=
  String.mk (s.data.dropWhile (fun c => chars.data.contains c))

/-- The tail of `ChatPlugin.handle` in `plugin.py` after the model call:
`if not response: return None, False` (both `None` and the empty list are
falsy), then each line is `lstrip`-ped with `self_name + ':'` and the
result is returned with `response is not None`, i.e. `True`. -/
def postProcess (ai : Option (List String)) (self_name : String) :
    Option (List String) × Bool :=
  match ai with
  | none => (none, false)
  | some [] => (none, false)
  | some l => (some (l.map (fun x => pyLstrip x (self_name ++ ":"))), true)

/-- `ChatPlugin.handle` from `plugin.py`.  `st` is `self.last_check_time`
(conversation id ↦ `(last_reply_time, ignored)`), `now` is
`int(time.time())`, and `ai` is the backend's reply for this invocation
(the prompt/history rendering affects the returned texts only through
it).  Returns the `(responses, continueChain)` pair and the updated
state.  When the gate suppresses, the state entry becomes
`(last, ignored + 1)`; whenever the gate allows (including the
no-prior-state path) the entry is set to `(now, 0)` before the backend is
consulted. -/
def ChatPlugin.handle (frequency max_ignore : Nat)
    (st : List (String × Nat × Nat)) (msg : Message) (now : Nat)
    (ai : Option (List String)) (self_name : String) :
    (Option (List String) × Bool) × List (String × Nat × Nat) :=
  if msg.type ≠ 1 then ((none, true), st)
  else
    match lookupState st msg.roomid with
    | some (last, ignored) =>
      if (now : Int) - (last : Int) < (frequency : Int) ∨ ignored < max_ignore then
        ((none, true), setState st msg.roomid (last, ignored + 1))
      else
        (postProcess ai self_name, setState st msg.roomid (now, 0))
    | none => (postProcess ai self_name, setState st msg.roomid (now, 0))

/-- One step of the `count_dict` construction in `RepeatPlugin.handle`:
record position `p` under key `t`, preserving dict insertion order. -/
def insertPos : List (String × List Nat) → String → Nat → List (String × List Nat)
  | [], t, p => [(t, [p])]
  | (t', ps) :: rest, t, p =>
    if t' = t then (t', ps ++ [p]) :: rest
    else (t', ps) :: insertPos rest t p

/-- `count_dict` of `RepeatPlugin.handle`: positions in `clear_context`
grouped by normalized text, in first-occurrence order. -/
def countDict (l : List String) : List (String × List Nat) :=
  l.enum.foldl (fun d pt => insertPos d pt.2 pt.1) []

/-- Python `max(vs, key=len)`: the first element of maximal length under
iteration order (`max` replaces its candidate only on a strictly greater
key); raises `ValueError` on an empty collection, modelled by `none`. -/
def maxByLen (vs : List (List Nat)) : Option (List Nat) :=
  match vs with
  | [] => none
  | v :: rest =>
    some (rest.foldl (fun best x => if best.length < x.length then x else best) v)

/-- The configuration and per-conversation state of `RepeatPlugin` in
`plugin.py` (`last_repeat` maps a conversation id to the text last
echoed there; the constructor defaults are 2, 10, 20). -/
structure RepeatPlugin where
  repeat_count : Nat
  context_length : Nat
  max_length : Nat
  last_repeat : List (String × String)
deriving DecidableEq, Repr

/-- `RepeatPlugin.handle` from `plugin.py`.  `history` is the
`kwargs['history']` window and `fetched` the window the external
`fetch_history` call would return when `history` is empty.  The only
fallible step is `max(count_dict.values(), key=len)`, which raises
`ValueError` when `count_dict` is empty; `Except.error ()` models that
exception.  On success the result is the `(responses, continueChain)`
pair and the updated plugin state. -/
def RepeatPlugin.handle (p : RepeatPlugin) (msg : Message)
    (history fetched : ChatWindow) (self_name : String) :
    Except Unit ((Option (List String) × Bool) × RepeatPlugin) :=
  if msg.type ≠ 1 then Except.ok ((none, true), p)
  else
    let history := if history.history.isEmpty then history.extend fetched else history
    let history := history.latest_n p.context_length
    if history.history.length < p.repeat_count then Except.ok ((none, true), p)
    else
      let blocked_set :=
        (history.history.filter (fun x => x.sender = self_name)).map SingleRecord.pure_text
      let clear_context :=
        (history.history.filter
          (fun x => x.pure_text ≠ "" ∧ ¬ blocked_set.contains x.pure_text)).map
          SingleRecord.pure_text
      match maxByLen ((countDict clear_context).map Prod.snd) with
      | none => Except.error ()
      | some max_repeat =>
        if max_repeat.length < p.repeat_count then Except.ok ((none, true), p)
        else
          let record := history.history.getD (max_repeat.getLastD 0) ⟨"", "", 0⟩
          let text := record.text
          if p.max_length < text.length then Except.ok ((none, true), p)
          else
            Except.ok ((some [text], false),
              { p with last_repeat := setState p.last_repeat msg.roomid text })

/-- Packaging of an `append` argument triple into a record. -/
def toRec : String × String × Nat → SingleRecord
  | (s, x, t) => ⟨s, x, t⟩

/-- Invariant of repeated `append` calls: starting from any window whose
history fits the capacity `C ≥ 1`, a sequence of appends never fails and
leaves exactly the suffix of capacity length of the full record stream. -/
theorem ChatWindow.appendAll_inv (C : Nat) (hC : 1 ≤ C)
    (l : List (String × String × Nat)) :
    ∀ h : List SingleRecord, h.length ≤ C →
      ChatWindow.appendAll ⟨C, h⟩ l
        = some ⟨C, (h ++ l.map toRec).drop (h.length + l.length - C)⟩ := by
  induction l with
  | nil =>
    intro h hlen
    simp [ChatWindow.appendAll, Nat.sub_eq_zero_of_le hlen]
  | cons hd rest ih =>
    intro h hlen
    obtain ⟨s, x, t⟩ := hd
    rw [ChatWindow.appendAll, ChatWindow.append]
    by_cases hfull : C ≤ h.length
    · have hEq : h.length = C := le_antisymm hlen hfull
      cases h with
      | nil => simp at hEq; omega
      | cons a h' =>
        simp only [if_pos hfull]
        have hEq' : h'.length + 1 = C := by simpa using hEq
        have hlen' : (h' ++ [(⟨s, x, t⟩ : SingleRecord)]).length ≤ C := by
          simp
          omega
        rw [ih (h' ++ [(⟨s, x, t⟩ : SingleRecord)]) hlen']
        have e1 : (h' ++ [(⟨s, x, t⟩ : SingleRecord)]).length + rest.length - C
            = rest.length := by
          simp
          omega
        have e2 : (a :: h').length + ((s, x, t) :: rest).length - C
            = rest.length + 1 := by
          simp
          omega
        rw [e1, e2]
        simp [toRec, List.append_assoc]
    · simp only [if_neg hfull]
      have hlen' : (h ++ [(⟨s, x, t⟩ : SingleRecord)]).length ≤ C := by
        simp
        omega
      rw [ih (h ++ [(⟨s, x, t⟩ : SingleRecord)]) hlen']
      have e1 : (h ++ [(⟨s, x, t⟩ : SingleRecord)]).length + rest.length - C
          = h.length + ((s, x, t) :: rest).length - C := by
        simp
        omega
      rw [e1]
      simp [toRec, List.append_assoc]

/-- Claim C1: the spec says that when a plugin returns a non-empty
response list together with `continueChain = false`, the dispatcher still
appends those texts to the reply buffer before stopping.  In the code the
`if not _continue: break` precedes the `response_back.extend(...)`, so
the halting plugin's texts are discarded: a one-plugin chain returning
`(["好的"], false)` yields an empty reply buffer and nothing is sent. -/
theorem dispatch_drops_halting_plugin_texts :
    dispatchLoop [] [Except.ok (some ["好的"], false)] = Except.ok [] := rfl

/-- Claim C2: the spec says `extend` always fully retains the incoming
window's records, truncating only the existing window.  In the code the
overflow branch replaces the stored history by a slice of itself and
never appends the incoming records: an existing window of capacity 3
holding 2 records, extended by an incoming window of 2 records, ends up
holding only the last existing record and neither incoming one. -/
theorem extend_drops_incoming_records :
    ChatWindow.extend ⟨3, [⟨"a", "1", 1⟩, ⟨"b", "2", 2⟩]⟩
        ⟨100, [⟨"c", "3", 3⟩, ⟨"d", "4", 4⟩]⟩
      = ⟨3, [⟨"b", "2", 2⟩]⟩ := by decide

/-- Claim C3, counterexample: with `frequency = 10` and `max_ignore = 2`
and no prior cadence state, the very first candidate message at `t = 0`
is NOT suppressed: the `msg.roomid in self.last_check_time` test fails,
the whole gate is bypassed, the backend is invoked (its reply is
returned) and the state is initialized to `(0, 0)`. -/
theorem first_message_invokes_backend :
    ChatPlugin.handle 10 2 [] ⟨1, "r"⟩ 0 (some ["hi"]) "Bot"
      = ((some ["hi"], true), [("r", 0, 0)]) := by decide

/-- Claim C3, amended: a first candidate message with no prior cadence
state always invokes the backend and initializes the state to
`(now, 0)`; when prior state `(last, ignored)` exists, the backend is
invoked exactly when `now - last ≥ frequency` and
`ignored ≥ max_ignore`, in which case the state is reset to `(now, 0)`
regardless of the backend's reply `ai`; otherwise the message is
suppressed with `(none, continue)` and `ignored` is incremented. -/
theorem cadence_gate_characterization (frequency max_ignore last ignored now : Nat)
    (room self_name : String) (ai : Option (List String)) :
    ChatPlugin.handle frequency max_ignore [] ⟨1, room⟩ now ai self_name
        = (postProcess ai self_name, [(room, now, 0)]) ∧
    ChatPlugin.handle frequency max_ignore [(room, last, ignored)] ⟨1, room⟩ now ai self_name
        = if (frequency : Int) ≤ (now : Int) - (last : Int) ∧ max_ignore ≤ ignored
          then (postProcess ai self_name, [(room, now, 0)])
          else ((none, true), [(room, last, ignored + 1)]) := by
  constructor
  · simp [ChatPlugin.handle, lookupState, setState]
  · have hl : lookupState [(room, last, ignored)] room = some (last, ignored) := by
      simp [lookupState]
    have hs1 : setState [(room, last, ignored)] room (last, ignored + 1)
        = [(room, last, ignored + 1)] := by
      simp [setState]
    have hs2 : setState [(room, last, ignored)] room (now, 0) = [(room, now, 0)] := by
      simp [setState]
    simp only [ChatPlugin.handle, hl, hs1, hs2, ne_eq, not_true_eq_false, if_false]
    by_cases hc : (now : Int) - (last : Int) < (frequency : Int) ∨ ignored < max_ignore
    · rw [if_pos hc, if_neg (by omega)]
    · rw [if_neg hc, if_pos (by omega)]

/-- Claim C4, counterexample: the spec says a plugin exception is caught
by the dispatcher, treated as `(empty, continue=true)`, and subsequent
plugins still run.  The plugin loop in `on_message` has no `try` around
`plugin.handle`, so the exception propagates: in a two-plugin chain whose
first plugin raises, the second plugin (which would contribute `["a"]`)
never runs and no texts are produced. -/
theorem plugin_exception_skips_rest_of_chain :
    dispatchLoop [] [Except.error (), Except.ok (some ["a"], true)]
      = Except.error () := rfl

/-- Claim C4, amended: an exception raised by a plugin propagates out of
the dispatcher's plugin loop immediately — whatever texts were already
collected are discarded, no later plugin of the chain runs, and no reply
is sent for that message (the exception is only caught and logged by the
enclosing message-receiving loop in `wechat.py`, so later messages are
still processed). -/
theorem plugin_exception_aborts_dispatch (acc : List String)
    (rest : List (Except Unit (Option (List String) × Bool))) :
    dispatchLoop acc (Except.error () :: rest) = Except.error () := rfl

/-- Claim C5: the spec says the echo is exactly the literal text of the
modal group's most recent occurrence.  The code indexes the unfiltered
window with a position taken from the filtered `clear_context` list:
with window `[甲:"好的", 乙:"。", 丙:"好的"]` the modal group is the
normalized `"好的"` at filtered positions `[0, 1]`, and `history[1]` is
乙's record, so the plugin echoes `"。"` instead of `"好的"`. -/
theorem repeat_echoes_wrong_record :
    RepeatPlugin.handle ⟨2, 10, 20, []⟩ ⟨1, "room"⟩
        ⟨100, [⟨"甲", "好的", 0⟩, ⟨"乙", "。", 0⟩, ⟨"丙", "好的", 0⟩]⟩ ⟨100, []⟩ "bot"
      = Except.ok ((some ["。"], false), ⟨2, 10, 20, [("room", "。")]⟩) := rfl

/-- Claim C6: the spec says that after echoing a text (recorded as the
conversation's `lastEchoedText`), an immediately following invocation
with an identical modal group does not echo again.  The code writes
`self.last_repeat[msg.roomid]` but never reads it: invoked twice on the
same window `[甲:"好的", 乙:"好的"]`, the plugin echoes `"好的"` both
times, the second time with `last_repeat` already holding that text. -/
theorem repeat_echoes_same_text_twice :
    RepeatPlugin.handle ⟨2, 10, 20, []⟩ ⟨1, "room"⟩
        ⟨100, [⟨"甲", "好的", 0⟩, ⟨"乙", "好的", 0⟩]⟩ ⟨100, []⟩ "bot"
      = Except.ok ((some ["好的"], false), ⟨2, 10, 20, [("room", "好的")]⟩) ∧
    RepeatPlugin.handle ⟨2, 10, 20, [("room", "好的")]⟩ ⟨1, "room"⟩
        ⟨100, [⟨"甲", "好的", 0⟩, ⟨"乙", "好的", 0⟩]⟩ ⟨100, []⟩ "bot"
      = Except.ok ((some ["好的"], false), ⟨2, 10, 20, [("room", "好的")]⟩) :=
  ⟨rfl, rfl⟩

/-- Claim C7: the spec says a response line beginning with the bot's
display name plus separator has exactly that one occurrence removed, so
`"Bot: hi"` with name `"Bot"` becomes `"hi"`.  The code uses
`str.lstrip(self_name + ':')`, which strips the longest leading run of
characters drawn from the set `{B, o, t, :}`: `"Bot: hi"` becomes
`" hi"` (the space survives, the claimed `"hi"` is never produced), and
`"Bot:oops"` loses part of its payload, becoming `"ps"`. -/
theorem lstrip_is_not_exact_removal :
    ChatPlugin.handle 10 2 [] ⟨1, "r"⟩ 5 (some ["Bot: hi"]) "Bot"
      = ((some [" hi"], true), [("r", 5, 0)]) ∧
    pyLstrip "Bot:oops" "Bot:" = "ps" := by
  exact ⟨by decide, by decide⟩

/-- Claim C8: the spec says `clean` removes bracket-delimited two-to-nine
letter sticker codes such as `"[Doge]"` entirely.  The code's pattern
`\[[a-zA-Z]{2-9}\]` contains the invalid quantifier `{2-9}`, which the
`re` module treats as literal text, and it runs only after the square
brackets themselves were already removed as ASCII punctuation, so the
sticker code's letters survive: `clean "[Doge]"` is `"Doge"`, not `""`. -/
theorem clean_keeps_sticker_letters :
    SingleRecord.clean "[Doge]" = "Doge" ∧
    SingleRecord.clean "哈哈[Doge]" = "哈哈Doge" := by
  exact ⟨by decide, by decide⟩

/-- Claim C9: for every sequence of `append` calls on a window of
capacity `C ≥ 1` starting empty, no call fails, the final history is
exactly the `min(C, total)` most recently appended records in append
order (the suffix of the appended stream), that history fits the
capacity, and after every prefix of the sequence the window also holds
at most `C` records. -/
theorem append_fifo_bounded (C : Nat) (hC : 1 ≤ C) (l : List (String × String × Nat)) :
    ChatWindow.appendAll ⟨C, []⟩ l = some ⟨C, (l.map toRec).drop (l.length - C)⟩ ∧
    ((l.map toRec).drop (l.length - C)).length ≤ C ∧
    ∀ p s, l = p ++ s →
      ∃ w, ChatWindow.appendAll ⟨C, []⟩ p = some w ∧ w.history.length ≤ C := by
  refine ⟨?_, ?_, ?_⟩
  · have h := ChatWindow.appendAll_inv C hC l [] (by simp)
    simpa using h
  · simp only [List.length_drop, List.length_map]
    omega
  · intro p s _
    refine ⟨⟨C, (p.map toRec).drop (p.length - C)⟩, ?_, ?_⟩
    · have h := ChatWindow.appendAll_inv C hC p [] (by simp)
      simpa using h
    · simp only [List.length_drop, List.length_map]
      omega

/-- Claim C9, witness: capacity 2 with three appends keeps exactly the
last two records, in order. -/
theorem append_fifo_bounded_witness :
    ChatWindow.appendAll ⟨2, []⟩ [("a", "1", 1), ("b", "2", 2), ("c", "3", 3)]
      = some ⟨2, [⟨"b", "2", 2⟩, ⟨"c", "3", 3⟩]⟩ :=
  (append_fifo_bounded 2 (by decide) [("a", "1", 1), ("b", "2", 2), ("c", "3", 3)]).1

/-- Claim C10: a reachable input on which `RepeatPlugin.handle` raises
instead of returning `(no response, continue)`: a text message whose
examined window holds `repeatCount` records, each of which normalizes to
the empty string (pure punctuation), makes `clear_context` empty, so
`max(count_dict.values(), key=len)` is a maximum over an empty
collection and raises `ValueError`. -/
theorem repeat_handle_raises_on_empty_groups :
    RepeatPlugin.handle ⟨2, 10, 20, []⟩ ⟨1, "room"⟩
        ⟨100, [⟨"甲", "。。", 0⟩, ⟨"乙", "！！", 0⟩]⟩ ⟨100, []⟩ "bot"
      = Except.error () := rfl
